import Mathlib

/-!
Verification development for the pwnenv workspace manager.

The Rust sources are shallowly embedded:
* `config.rs` — `ToolInstall`, `Tool`, `Config`, `Config.default`,
  `Config.to_dockerfile` (the tool-catalog → Dockerfile compiler);
* `manager.rs` — the workspace layout (`FilesInfo` / `RuntimeDir` /
  `ProgramsDir`) as path derivations, `AppManager.setup_minimum_requirements`,
  `AppManager.open_config`, the filesystem effect of `AppManager.init`,
  `AppManager.enter`, `AppManager.kill` over an explicit filesystem state, and
  `generate_docker_compose_config` with its `str::replace` template expansion.
-/

namespace Pwnenv

/-- Embeds `struct ToolInstall { base_image: String, script: Vec<String> }`
from config.rs. -/
structure ToolInstall where
  base_image : String
  script : List String
deriving DecidableEq, Repr

/-- Embeds `struct Tool { name: String, installs: Vec<ToolInstall> }`
from config.rs. -/
structure Tool where
  name : String
  installs : List ToolInstall
deriving DecidableEq, Repr

/-- Embeds `struct Config { base_image, init_script, post_script, tools }`
from config.rs. -/
structure Config where
  base_image : String
  init_script : List String
  post_script : List String
  tools : List Tool
deriving DecidableEq, Repr

/-- One line of the generated Dockerfile: the source appends
`format!("{}\n", line)`, i.e. the line text followed by a newline. -/
def pushLine (acc line : String) : String :=
  acc ++ line ++ "\n"

/-- Embeds `Config::to_dockerfile` from config.rs: the `FROM` header, the
init-script lines, per tool the first install whose target equals the config's
base image (else the first install whose target is `"default"`, else nothing),
then the post-script lines.  The `find`/`is_some`/`if let` structure of the
source collapses to a match on the two `find?` results. -/
def Config.to_dockerfile (c : Config) : String :=
  let d := "FROM " ++ c.base_image ++ "\n"
  let d := c.init_script.foldl pushLine d
  let d := c.tools.foldl (fun acc tool =>
    let optimized_install := tool.installs.find? (fun i => i.base_image == c.base_image)
    let default_install := tool.installs.find? (fun i => i.base_image == "default")
    match optimized_install, default_install with
    | some o_install, _ => o_install.script.foldl pushLine acc
    | none, some d_install => d_install.script.foldl pushLine acc
    | none, none => acc) d
  c.post_script.foldl pushLine d

/-- The lines the compiler emits for one tool: the script of the first install
matching the base image exactly, else of the first wildcard (`"default"`)
install, else nothing.  Extracted from the body of the tool loop in
`Config::to_dockerfile`. -/
def toolSection (base : String) (tool : Tool) : List String :=
  match tool.installs.find? (fun i => i.base_image == base),
        tool.installs.find? (fun i => i.base_image == "default") with
  | some o_install, _ => o_install.script
  | none, some d_install => d_install.script
  | none, none => []

/-- Joins a list of lines into the flat text the compiler produces: each line
followed by a newline. -/
def lineJoin (lines : List String) : String :=
  lines.foldr (fun l acc => l ++ "\n" ++ acc) ""

/-- The generated Dockerfile as a list of lines: `FROM` header, init script,
the per-tool sections in catalog order, post script. -/
def Config.dockerfileLines (c : Config) : List String :=
  ("FROM " ++ c.base_image) :: (c.init_script ++ (c.tools.map (toolSection c.base_image)).flatten ++ c.post_script)

/-- `IndexMap::insert` semantics: if the key is present, the value is updated
in place (insertion position kept); otherwise the pair is appended. -/
def insertIM (m : List (String × List String)) (k : String) (v : List String) :
    List (String × List String) :=
  if m.any (fun p => p.1 == k) then
    m.map (fun p => if p.1 == k then (k, v) else p)
  else
    m ++ [(k, v)]

/-- The `IndexMap` built in `Config::default` (config.rs), insert by insert.
`"libyaml-dev"` is inserted twice in the source; the second insert updates the
value at the original position. -/
def defaultCatalog : List (String × List String) :=
  let t := insertIM [] "build-essential" ["RUN apt install build-essential -y"]
  let t := insertIM t "ca-certificates" ["RUN apt install ca-certificates -y"]
  let t := insertIM t "libssl-dev" ["RUN apt install libssl-dev -y"]
  let t := insertIM t "zlib1g-dev" ["RUN apt install zlib1g-dev -y"]
  let t := insertIM t "libbz2-dev" ["RUN apt install libbz2-dev -y"]
  let t := insertIM t "libreadline-dev" ["RUN apt install libreadline-dev -y"]
  let t := insertIM t "libsqlite3-dev" ["RUN apt install libsqlite3-dev -y"]
  let t := insertIM t "wget" ["RUN apt install wget -y"]
  let t := insertIM t "curl" ["RUN apt install curl -y"]
  let t := insertIM t "llvm" ["RUN apt install llvm -y"]
  let t := insertIM t "make" ["RUN apt install make -y"]
  let t := insertIM t "zip" ["RUN apt install zip -y"]
  let t := insertIM t "unzip" ["RUN apt install unzip -y"]
  let t := insertIM t "libncurses5-dev" ["RUN apt install libncurses5-dev -y"]
  let t := insertIM t "libncursesw5-dev" ["RUN apt install libncursesw5-dev -y"]
  let t := insertIM t "xz-utils" ["RUN apt install xz-utils -y"]
  let t := insertIM t "tk-dev" ["RUN apt install tk-dev -y"]
  let t := insertIM t "libxml2-dev" ["RUN apt install libxml2-dev -y"]
  let t := insertIM t "libxmlsec1-dev" ["RUN apt install libxmlsec1-dev -y"]
  let t := insertIM t "libffi-dev" ["RUN apt install libffi-dev -y"]
  let t := insertIM t "liblzma-dev" ["RUN apt install liblzma-dev -y"]
  let t := insertIM t "libyaml-dev" ["RUN apt install libyaml-dev -y"]
  let t := insertIM t "python3" ["RUN apt install python3 -y"]
  let t := insertIM t "python3-dev" ["RUN apt install python3-dev -y"]
  let t := insertIM t "python3-pip" ["RUN apt install python3-pip -y"]
  let t := insertIM t "gcc" ["RUN apt install gcc -y"]
  let t := insertIM t "tree" ["RUN apt install tree -y"]
  let t := insertIM t "git" ["RUN apt install git -y"]
  let t := insertIM t "libyaml-dev" ["RUN apt install libyaml-dev -y"]
  let t := insertIM t "neovim" ["RUN apt install neovim -y"]
  let t := insertIM t "neofetch" ["RUN apt install neofetch -y"]
  let t := insertIM t "openssh-server" ["RUN apt install openssh-server -y"]
  let t := insertIM t "patchelf" ["RUN apt install patchelf -y"]
  let t := insertIM t "elfutils" ["RUN apt install elfutils -y"]
  let t := insertIM t "psmisc" ["RUN apt install psmisc -y"]
  let t := insertIM t "file" ["RUN apt install file -y"]
  let t := insertIM t "devscripts" ["RUN apt install devscripts -y"]
  let t := insertIM t "fish"
    ["RUN apt install fish -y",
     "RUN chsh -s /bin/fish",
     "RUN mkdir /root/.config/fish"]
  let t := insertIM t "seccomp" ["RUN apt install libseccomp-dev libseccomp2 seccomp -y"]
  let t := insertIM t "ruby" ["RUN apt install ruby-dev -y"]
  let t := insertIM t "pyenv"
    ["RUN git clone https://github.com/pyenv/pyenv.git $HOME/.pyenv",
     "RUN echo 'set -x PYENV_ROOT /root/.pyenv' >> /root/.config/fish/config.fish",
     "RUN echo 'set -x PATH  /root/.pyenv/bin $PATH' >> /root/.config/fish/config.fish",
     "RUN echo 'set -x PATH /root/.pyenv/shims $PATH' >> /root/.config/fish/config.fish",
     "RUN /root/.pyenv/bin/pyenv install pypy3.9-7.3.16",
     "RUN /root/.pyenv/bin/pyenv global pypy3.9-7.3.16",
     "ENV PATH $PATH:/root/.pyenv/shims/"]
  let t := insertIM t "ptrlib" ["RUN pip install ptrlib"]
  let t := insertIM t "pwntools" ["RUN pip install pwntools"]
  let t := insertIM t "rust"
    ["RUN curl https://sh.rustup.rs -sSf | sh -s -- -y",
     "RUN echo 'set -x PATH /root/.cargo/bin $PATH' >> /root/.config/fish/config.fish",
     "ENV PATH $PATH:/root/.cargo/bin"]
  let t := insertIM t "ropr" ["RUN cargo install ropr"]
  let t := insertIM t "bat"
    ["RUN cargo install bat",
     "RUN echo 'alias bat=\"bat --theme=gruvbox-dark\"' >> /root/.config/fish/config.fish"]
  let t := insertIM t "eza"
    ["RUN cargo install eza",
     "RUN echo 'alias ls=\"eza\"' >> /root/.config/fish/config.fish"]
  let t := insertIM t "gdb"
    ["RUN apt install gdb -y",
     "WORKDIR /root/tools",
     "RUN git clone https://github.com/pwndbg/pwndbg",
     "WORKDIR /root/tools/pwndbg",
     "RUN ./setup.sh",
     "RUN echo '#!/bin/bash' > /usr/local/bin/ptr",
     "RUN echo 'gdb -q -p $(pidof $1)' >> /usr/local/bin/ptr",
     "RUN echo 'set follow-fork-mode parent' >> /root/.gdbinit"]
  let t := insertIM t "pwninit" ["RUN cargo install pwninit"]
  let t := insertIM t "seccomp-tools"
    ["RUN gem install seccomp-tools --no-document --force"]
  let t := insertIM t "glibc"
    ["WORKDIR /root/",
     "RUN git clone https://github.com/bminor/glibc",
     "RUN ln -s /root/glibc /root/workspace/glibc",
     "WORKDIR /root/",
     "RUN git clone https://github.com/matrix1001/glibc-all-in-one",
     "RUN ln -s /root/glibc-all-in-one /root/workspace/glibc-all-in-one"]
  let t := insertIM t "ripgrep"
    ["RUN apt install ripgrep -y",
     "RUN echo 'alias grep=\"rg\"' >> /root/.config/fish/config.fish"]
  t

/-- Embeds `Config::default` from config.rs: the catalog entries become tools
with a single wildcard (`"default"`) install, plus the fixed init and post
scripts and the `amd64/ubuntu:22.04` base image. -/
def Config.default : Config where
  base_image := "amd64/ubuntu:22.04"
  init_script :=
    ["ENV DEBIAN_FRONTEND noninteractive",
     "ENV TZ Asia/Tokyo",
     "RUN apt update",
     "RUN apt-get update",
     "RUN apt install -y",
     "RUN mkdir /root/tools",
     "RUN mkdir /root/workspace",
     "RUN mkdir /root/.config"]
  post_script :=
    ["RUN echo \"set -x LC_CTYPE C.UTF-8\" >> /root/.config/fish/config.fish"]
  tools := defaultCatalog.map (fun p =>
    { name := p.1, installs := [{ base_image := "default", script := p.2 }] })

/-! ## Workspace layout (manager.rs, module `config_file_structure`)

Paths are embedded as lists of components; `PathBuf::join` with a single
normal component appends it. -/

/-- Embeds `ProgramsDir` from manager.rs. -/
structure ProgramsDir where
  path : List String
deriving DecidableEq, Repr

/-- Embeds `ProgramsDir::new`. -/
def ProgramsDir.new (path : List String) : ProgramsDir :=
  { path := path }

/-- Embeds `RuntimeDir` from manager.rs. -/
structure RuntimeDir where
  path : List String
  programs : ProgramsDir
  dockerfile : List String
  docker_compose_file : List String
deriving DecidableEq, Repr

/-- Embeds `RuntimeDir::new`: `programs`, `Dockerfile` and
`docker-compose.yml` live directly under the runtime directory. -/
def RuntimeDir.new (path : List String) : RuntimeDir :=
  { path := path
    programs := ProgramsDir.new (path ++ ["programs"])
    dockerfile := path ++ ["Dockerfile"]
    docker_compose_file := path ++ ["docker-compose.yml"] }

/-- Embeds `FilesInfo` from manager.rs. -/
structure FilesInfo where
  path : List String
  sample_config : List String
  config : List String
  runtime : RuntimeDir
deriving DecidableEq, Repr

/-- Embeds `FilesInfo::new`: `sample_config.yml`, `config.yml` and the
`runtime` subtree under the base path. -/
def FilesInfo.new (path : List String) : FilesInfo :=
  { path := path
    sample_config := path ++ ["sample_config.yml"]
    config := path ++ ["config.yml"]
    runtime := RuntimeDir.new (path ++ ["runtime"]) }

/-- `Path::strip_prefix` over component lists: succeeds iff `base` is a
component-wise prefix of `self`, yielding the remaining components. -/
def stripPrefix (self base : List String) : Option (List String) :=
  if base.isPrefixOf self then some (self.drop base.length) else none

/-- `Path::display` of a relative component list. -/
def pathDisplay (p : List String) : String :=
  String.intercalate "/" p

/-! ## `str::replace` and `generate_docker_compose_config` (manager.rs) -/

/-- Fueled worker for `str::replace`: at each position, if the pattern starts
there, emit the replacement and resume after the matched occurrence (the
replacement is not rescanned); otherwise copy one character.  The fuel is the
input length (each step consumes at least one character).  Only used with
nonempty patterns. -/
def replaceAllAux (pat rep : List Char) : Nat → List Char → List Char
  | _, [] => []
  | 0, c :: rest => c :: rest
  | fuel+1, c :: rest =>
      if !pat.isEmpty && pat.isPrefixOf (c :: rest) then
        rep ++ replaceAllAux pat rep fuel ((c :: rest).drop pat.length)
      else
        c :: replaceAllAux pat rep fuel rest

/-- `str::replace`: replace every non-overlapping occurrence of `pat` in `l`
by `rep`, left to right. -/
def replaceAll (l pat rep : List Char) : List Char :=
  replaceAllAux pat rep l.length l

/-- `str::replace` lifted to `String`. -/
def strReplace (s pat rep : String) : String :=
  String.mk (replaceAll s.data pat.data rep.data)

/-- The raw docker-compose template of `generate_docker_compose_config`
(manager.rs).  The Rust raw string opens directly before a newline, so the
text starts and ends with a newline. -/
def composeTemplate : String :=
  "\nversion: \"3.9\"\nservices:\n    pwn:\n        build:\n            context: .\n            dockerfile: {dockerfile}\n            args:\n                UID: $UID\n                GID: $GID\n                USERNAME: $USERNAME\n                GROUPNAME: $GROUPNAME\n        user: $UID:$GID\n        tty: true\n        privileged: true\n        ulimits:\n            core:\n                soft: -1\n                hard: -1\n        cap_add:\n            - \"SYS_PTRACE\"\n        security_opt:\n            - \"seccomp=unconfined\"\n        ports:\n            - \"127.0.0.1:3333:3333\"\n        volumes:\n            - {host_dir}:/root/workspace:rw\n"

/-- Embeds `generate_docker_compose_config` from manager.rs: substitute the
dockerfile name and the displayed host directory path into the template. -/
def generate_docker_compose_config (dockerfile_name : String) (host_dir_path : String) : String :=
  strReplace (strReplace composeTemplate "{dockerfile}" dockerfile_name) "{host_dir}" host_dir_path

/-! ## `AppManager` filesystem effects (manager.rs)

The workspace files live at fixed places under the config root, so the
filesystem state relevant to the manager is: whether the root and runtime
directories and the programs directory exist, and the contents of the config
file (kept as the parsed `Config` — serialization is the external
`serde_yaml` collaborator), the Dockerfile and the compose file. -/

structure FsState where
  rootDir : Bool
  configFile : Option Config
  runtimeDir : Bool
  dockerfileFile : Option String
  composeFile : Option String
  programsDir : Bool
deriving DecidableEq, Repr

/-- Embeds `AppManager::setup_minimum_requirements` (manager.rs): create the
config root directory if absent, write the default config to `config.yml` if
absent, create the runtime directory if absent.  (The sample-config block in
the source is commented out.) -/
def AppManager.setup_minimum_requirements (s : FsState) : FsState :=
  let s1 := if s.rootDir then s else { s with rootDir := true }
  let s2 := if s1.configFile.isSome then s1
            else { s1 with configFile := some Config.default }
  if s2.runtimeDir then s2 else { s2 with runtimeDir := true }

/-- Embeds `AppManager::open_config` (manager.rs): opening fails when the
config file is absent; otherwise the stored config is returned.  The file is
only read, never written. -/
def AppManager.open_config (s : FsState) : Except String Config :=
  match s.configFile with
  | some c => Except.ok c
  | none => Except.error "Failed to open the config file."

/-- The Dockerfile contents built inside `AppManager::init` (manager.rs): the
compiled config followed by a `COPY` line for the programs directory's path
relative to the runtime directory and a `WORKDIR` line; `none` models the
`PathError` branch where `strip_prefix` fails. -/
def initDockerfileContent (root : List String) (config : Config) : Option String :=
  let files := FilesInfo.new root
  match stripPrefix files.runtime.programs.path files.runtime.path with
  | none => none
  | some rel =>
      some (config.to_dockerfile
        ++ ("COPY " ++ pathDisplay rel ++ " /root/workspace\n")
        ++ "WORKDIR /root/workspace\n")

/-- The compose-file contents written by `AppManager::init` (manager.rs):
`generate_docker_compose_config("Dockerfile", host_dir_path)`.  The loaded
config is in scope at that point in the source but does not enter the call. -/
def initComposeContent (_config : Config) (host_dir_path : String) : String :=
  generate_docker_compose_config "Dockerfile" host_dir_path

/-- Embeds the filesystem effect of `AppManager::init` (manager.rs): load the
config (fail when absent), write the Dockerfile, write the compose file
generated from the host directory path, and replace the programs directory
with a mirror of the host directory.  The subsequent `docker compose`
invocations are the external engine and touch no workspace file. -/
def AppManager.init (root : List String) (host_dir_path : String) (s : FsState) :
    Except String FsState :=
  match AppManager.open_config s with
  | Except.error e => Except.error e
  | Except.ok config =>
      match initDockerfileContent root config with
      | none => Except.error "Failed to get the relative path of the programs directory."
      | some dockerfile_buffer =>
          Except.ok { s with
            dockerfileFile := some dockerfile_buffer
            composeFile := some (initComposeContent config host_dir_path)
            programsDir := true }

/-- Embeds the filesystem effect of `AppManager::enter` (manager.rs): it only
changes the working directory and execs the external engine; no workspace
file is created or written. -/
def AppManager.enter (s : FsState) : FsState := s

/-- Embeds the filesystem effect of `AppManager::kill` (manager.rs): it only
changes the working directory and invokes the external engine twice; no
workspace file is created or written. -/
def AppManager.kill (s : FsState) : FsState := s

/-- A tool all of whose installs target the wildcard sentinel `"default"`. -/
def wildcardOnly (t : Tool) : Bool :=
  t.installs.all (fun i => i.base_image == "default")

/-- A fresh workspace: nothing exists yet. -/
def emptyFs : FsState :=
  { rootDir := false, configFile := none, runtimeDir := false
    dockerfileFile := none, composeFile := none, programsDir := false }

/-- A workspace whose layout and config file already exist. -/
def readyFs : FsState :=
  { rootDir := true, configFile := some Config.default, runtimeDir := true
    dockerfileFile := none, composeFile := none, programsDir := false }

/-- `noPrefixUpTo pat l n`: the pattern does not start at any of the first `n`
positions of `l`. -/
def noPrefixUpTo (pat : List Char) : List Char → Nat → Bool
  | _, 0 => true
  | [], _+1 => true
  | c :: rest, n+1 => !pat.isPrefixOf (c :: rest) && noPrefixUpTo pat rest n

/-- The text of the compose template before the `host_dir` placeholder, after
the dockerfile name has been substituted. -/
def composePre : String :=
  "\nversion: \"3.9\"\nservices:\n    pwn:\n        build:\n            context: .\n            dockerfile: Dockerfile\n            args:\n                UID: $UID\n                GID: $GID\n                USERNAME: $USERNAME\n                GROUPNAME: $GROUPNAME\n        user: $UID:$GID\n        tty: true\n        privileged: true\n        ulimits:\n            core:\n                soft: -1\n                hard: -1\n        cap_add:\n            - \"SYS_PTRACE\"\n        security_opt:\n            - \"seccomp=unconfined\"\n        ports:\n            - \"127.0.0.1:3333:3333\"\n        volumes:\n            - "

/-- The text of the compose template after the `host_dir` placeholder. -/
def composeSuf : String := ":/root/workspace:rw\n"

/-! ## Lemmas -/

theorem lineJoin_cons (x : String) (xs : List String) :
    lineJoin (x :: xs) = x ++ "\n" ++ lineJoin xs := rfl

theorem lineJoin_append (xs ys : List String) :
    lineJoin (xs ++ ys) = lineJoin xs ++ lineJoin ys := by
  induction xs with
  | nil => simp [lineJoin, String.empty_append]
  | cons x xs ih =>
      simp only [List.cons_append, lineJoin, List.foldr_cons] at *
      rw [ih]
      simp only [String.append_assoc]

theorem foldl_pushLine (lines : List String) (acc : String) :
    lines.foldl pushLine acc = acc ++ lineJoin lines := by
  induction lines generalizing acc with
  | nil => simp [lineJoin, String.append_empty]
  | cons l ls ih =>
      rw [List.foldl_cons, ih]
      unfold pushLine lineJoin
      simp only [List.foldr_cons, String.append_assoc]

theorem foldl_toolSection (tools : List Tool) (base : String) (acc : String) :
    tools.foldl (fun acc tool =>
      match tool.installs.find? (fun i => i.base_image == base),
            tool.installs.find? (fun i => i.base_image == "default") with
      | some o_install, _ => o_install.script.foldl pushLine acc
      | none, some d_install => d_install.script.foldl pushLine acc
      | none, none => acc) acc
    = acc ++ lineJoin (tools.map (toolSection base)).flatten := by
  induction tools generalizing acc with
  | nil => simp [lineJoin, String.append_empty]
  | cons t ts ih =>
      simp only [List.foldl_cons, List.map_cons, List.flatten_cons, lineJoin_append]
      rw [ih]
      unfold toolSection
      cases ho : t.installs.find? (fun i => i.base_image == base) with
      | some o =>
          simp only [ho, foldl_pushLine, String.append_assoc]
      | none =>
          cases hd : t.installs.find? (fun i => i.base_image == "default") with
          | some d =>
              simp only [ho, hd, foldl_pushLine, String.append_assoc]
          | none =>
              simp only [ho, hd, lineJoin, List.foldr_nil, String.empty_append]

/-- `to_dockerfile` is exactly the newline-join of `dockerfileLines`. -/
theorem to_dockerfile_eq_lineJoin (c : Config) :
    c.to_dockerfile = lineJoin c.dockerfileLines := by
  simp only [Config.to_dockerfile, Config.dockerfileLines]
  rw [foldl_pushLine c.post_script, foldl_toolSection, foldl_pushLine c.init_script]
  rw [lineJoin_cons, lineJoin_append, lineJoin_append]
  simp only [String.append_assoc]

theorem replaceAllAux_nil (pat rep : List Char) (fuel : Nat) :
    replaceAllAux pat rep fuel [] = [] := by
  cases fuel <;> rfl

theorem replaceAllAux_append (pat rep : List Char) (pre suf : List Char) (fuel : Nat)
    (hf : pre.length ≤ fuel)
    (hpre : noPrefixUpTo pat (pre ++ suf) pre.length = true) :
    replaceAllAux pat rep fuel (pre ++ suf)
      = pre ++ replaceAllAux pat rep (fuel - pre.length) suf := by
  induction pre generalizing fuel with
  | nil => simp
  | cons c pre ih =>
      cases fuel with
      | zero => simp at hf
      | succ f =>
          simp only [List.cons_append, List.length_cons, noPrefixUpTo,
            Bool.and_eq_true, Bool.not_eq_true'] at hpre
          obtain ⟨h1, h2⟩ := hpre
          simp only [List.cons_append, replaceAllAux]
          simp only [List.append_eq] at h1 h2 ⊢
          simp only [h1, Bool.and_false]
          simp only [Bool.false_eq_true, if_false]
          rw [ih f (by simpa using hf) h2]
          simp [Nat.succ_sub_succ]

theorem replaceAllAux_matchStep (pat rep suf : List Char) (fuel : Nat) (hne : pat ≠ []) :
    replaceAllAux pat rep (fuel + 1) (pat ++ suf) = rep ++ replaceAllAux pat rep fuel suf := by
  obtain ⟨c, cs, rfl⟩ : ∃ c cs, pat = c :: cs := by
    cases pat with
    | nil => exact absurd rfl hne
    | cons c cs => exact ⟨c, cs, rfl⟩
  have hpre : (c :: cs).isPrefixOf ((c :: cs) ++ suf) = true := by
    rw [List.isPrefixOf_iff_prefix]
    exact List.prefix_append _ _
  simp only [List.cons_append] at hpre
  simp only [List.cons_append, replaceAllAux]
  simp only [List.append_eq]
  simp [hpre, List.drop_left]

theorem replaceAllAux_noOccur (pat rep l : List Char) (fuel : Nat)
    (hf : l.length ≤ fuel)
    (h : noPrefixUpTo pat l l.length = true) :
    replaceAllAux pat rep fuel l = l := by
  have h' : noPrefixUpTo pat (l ++ []) l.length = true := by simpa using h
  have := replaceAllAux_append pat rep l [] fuel hf h'
  simpa [replaceAllAux_nil] using this

set_option maxRecDepth 40000 in
/-- Substituting the host directory into the compose template splits the
output into a fixed prefix, the host path verbatim, and a fixed suffix. -/
theorem generate_decomp (host : String) :
    (generate_docker_compose_config "Dockerfile" host).data
      = composePre.data ++ host.data ++ composeSuf.data := by
  have hA : (strReplace composeTemplate "{dockerfile}" "Dockerfile").data
      = composePre.data ++ "{host_dir}".data ++ composeSuf.data := by decide
  show replaceAll (strReplace composeTemplate "{dockerfile}" "Dockerfile").data
      "{host_dir}".data host.data = _
  rw [hA, List.append_assoc]
  show replaceAllAux "{host_dir}".data host.data _ _ = _
  rw [replaceAllAux_append "{host_dir}".data host.data composePre.data
        ("{host_dir}".data ++ composeSuf.data) _ (by simp) (by decide)]
  rw [show (composePre.data ++ ("{host_dir}".data ++ composeSuf.data)).length
        - composePre.data.length = 29 + 1 by decide]
  rw [replaceAllAux_matchStep _ _ _ _ (by decide)]
  rw [replaceAllAux_noOccur _ _ _ _ (by decide) (by decide)]
  simp [List.append_assoc]

theorem find?_first {α} (p : α → Bool) (pre suf : List α) (x : α)
    (hx : p x = true) (hpre : ∀ y ∈ pre, p y = false) :
    (pre ++ x :: suf).find? p = some x := by
  induction pre with
  | nil => simp [List.find?_cons_of_pos _ hx]
  | cons a pre ih =>
      have ha : p a = false := hpre a (by simp)
      rw [List.cons_append, List.find?_cons_of_neg _ (by simp [ha])]
      exact ih (fun y hy => hpre y (by simp [hy]))

theorem stripPrefix_programs (root : List String) :
    stripPrefix (FilesInfo.new root).runtime.programs.path
      (FilesInfo.new root).runtime.path = some ["programs"] := by
  have hp : (root ++ ["runtime"]).isPrefixOf (root ++ ["runtime"] ++ ["programs"]) = true := by
    rw [List.isPrefixOf_iff_prefix]
    exact List.prefix_append _ _
  simp [FilesInfo.new, RuntimeDir.new, ProgramsDir.new, stripPrefix, hp, List.drop_left]

theorem initDockerfileContent_eq (root : List String) (config : Config) :
    initDockerfileContent root config
      = some (config.to_dockerfile
          ++ ("COPY " ++ pathDisplay ["programs"] ++ " /root/workspace\n")
          ++ "WORKDIR /root/workspace\n") := by
  unfold initDockerfileContent
  simp only []
  rw [stripPrefix_programs]

/-! ## Claims -/

/-- C1: when a tool has an install whose target equals the config's base
image (and also a wildcard install), compiling emits exactly the lines of the
first exact-match install in the tool's install sequence for that tool —
never the wildcard install's lines. -/
theorem exact_match_install_wins (c : Config) (ts1 ts2 : List Tool) (tool : Tool)
    (pre suf : List ToolInstall) (inst : ToolInstall)
    (htools : c.tools = ts1 ++ tool :: ts2)
    (hsplit : tool.installs = pre ++ inst :: suf)
    (hmatch : inst.base_image = c.base_image)
    (hfirst : ∀ j ∈ pre, j.base_image ≠ c.base_image)
    (_hwild : ∃ w ∈ tool.installs, w.base_image = "default") :
    c.dockerfileLines
      = ("FROM " ++ c.base_image)
        :: (c.init_script
          ++ ((ts1.map (toolSection c.base_image)).flatten
              ++ inst.script
              ++ (ts2.map (toolSection c.base_image)).flatten)
          ++ c.post_script) := by
  have hsec : toolSection c.base_image tool = inst.script := by
    unfold toolSection
    rw [hsplit, find?_first _ pre suf inst (by simp [hmatch])
          (fun y hy => by simp [hfirst y hy])]
  unfold Config.dockerfileLines
  rw [htools]
  simp [hsec, List.append_assoc]

/-- C1 witness: a config whose single tool has an exact-match and a wildcard
install; only the exact-match lines appear. -/
theorem exact_match_install_wins_witness :
    (Config.mk "ubuntu" ["I"] ["P"]
        [Tool.mk "exampletool"
          [ToolInstall.mk "ubuntu" ["A"], ToolInstall.mk "default" ["B"]]]).dockerfileLines
      = ["FROM ubuntu", "I", "A", "P"] := by
  have h := exact_match_install_wins
    (Config.mk "ubuntu" ["I"] ["P"]
      [Tool.mk "exampletool"
        [ToolInstall.mk "ubuntu" ["A"], ToolInstall.mk "default" ["B"]]])
    [] [] (Tool.mk "exampletool"
        [ToolInstall.mk "ubuntu" ["A"], ToolInstall.mk "default" ["B"]])
    [] [ToolInstall.mk "default" ["B"]] (ToolInstall.mk "ubuntu" ["A"])
    rfl rfl rfl (by simp) ⟨ToolInstall.mk "default" ["B"], by simp, rfl⟩
  simpa using h

/-- C2: the compiled script is the newline-join of: one `FROM` line naming
the base image first, then the init script, the tool sections, and finally
the post-script lines verbatim in order; in particular the line list starts
with the single base-image declaration and ends with the post script. -/
theorem compile_output_shape (c : Config) :
    c.to_dockerfile
      = lineJoin (("FROM " ++ c.base_image)
          :: (c.init_script ++ (c.tools.map (toolSection c.base_image)).flatten
              ++ c.post_script))
    ∧ c.dockerfileLines.take 1 = ["FROM " ++ c.base_image]
    ∧ c.post_script <:+ c.dockerfileLines := by
  refine ⟨to_dockerfile_eq_lineJoin c, rfl, ?_⟩
  show c.post_script <:+ ("FROM " ++ c.base_image)
      :: (c.init_script ++ (c.tools.map (toolSection c.base_image)).flatten ++ c.post_script)
  refine ⟨("FROM " ++ c.base_image)
      :: (c.init_script ++ (c.tools.map (toolSection c.base_image)).flatten), ?_⟩
  simp

set_option maxRecDepth 40000 in
/-- C3: compiling the default config (base image `amd64/ubuntu:22.04`) emits
the install lines of every wildcard-only catalog tool in catalog order, and
the three fish-shell lines verbatim and contiguous. -/
theorem default_compile_catalog :
    ((Config.default.tools.filter wildcardOnly).map
        (fun t => (t.installs.map ToolInstall.script).flatten)).flatten.Sublist
      Config.default.dockerfileLines
    ∧ ["RUN apt install fish -y", "RUN chsh -s /bin/fish",
       "RUN mkdir /root/.config/fish"] <:+: Config.default.dockerfileLines := by
  decide

/-- C4 counterexample: on a fresh workspace the layout-ensuring operation
does create the config file, contrary to the claim that it creates only the
two directories. -/
theorem setup_creates_config_file :
    (AppManager.setup_minimum_requirements emptyFs).configFile ≠ none := by
  decide

/-- C4 (amended): the layout-ensuring operation creates the root directory,
the runtime directory, and the config file with default contents when
absent; it does not touch the Dockerfile, the compose file, or the programs
directory. -/
theorem setup_frame (s : FsState) :
    (AppManager.setup_minimum_requirements s).rootDir = true
    ∧ (AppManager.setup_minimum_requirements s).runtimeDir = true
    ∧ (AppManager.setup_minimum_requirements s).configFile
        = some (s.configFile.getD Config.default)
    ∧ (AppManager.setup_minimum_requirements s).dockerfileFile = s.dockerfileFile
    ∧ (AppManager.setup_minimum_requirements s).composeFile = s.composeFile
    ∧ (AppManager.setup_minimum_requirements s).programsDir = s.programsDir := by
  unfold AppManager.setup_minimum_requirements
  obtain ⟨root, cfg, run, dk, cp, pg⟩ := s
  cases root <;> cases run <;> cases cfg <;> simp

/-- C5: compilation is a deterministic function of the config value: equal
configs compile to byte-identical scripts. -/
theorem to_dockerfile_deterministic (c₁ c₂ : Config) (h : c₁ = c₂) :
    c₁.to_dockerfile = c₂.to_dockerfile := by
  rw [h]

/-- C5 witness. -/
theorem to_dockerfile_deterministic_witness :
    Config.default.to_dockerfile = Config.default.to_dockerfile :=
  to_dockerfile_deterministic Config.default Config.default rfl

/-- C6: a tool whose only install targets the wildcard sentinel contributes
exactly that install's lines, whatever the config's base image is. -/
theorem wildcard_install_always_emitted (c : Config) (ts1 ts2 : List Tool)
    (tool : Tool) (w : ToolInstall)
    (htools : c.tools = ts1 ++ tool :: ts2)
    (honly : tool.installs = [w])
    (hw : w.base_image = "default") :
    c.dockerfileLines
      = ("FROM " ++ c.base_image)
        :: (c.init_script
          ++ ((ts1.map (toolSection c.base_image)).flatten
              ++ w.script
              ++ (ts2.map (toolSection c.base_image)).flatten)
          ++ c.post_script) := by
  have hsec : toolSection c.base_image tool = w.script := by
    unfold toolSection
    rw [honly]
    by_cases hb : w.base_image = c.base_image
    · simp [hb]
    · rw [hw] at hb
      simp [hb, hw]
  unfold Config.dockerfileLines
  rw [htools]
  simp [hsec, List.append_assoc]

/-- C6 witness: a wildcard-only tool is emitted under a base image that
matches no install target exactly. -/
theorem wildcard_install_always_emitted_witness :
    (Config.mk "debian" ["I"] ["P"]
        [Tool.mk "exampletool" [ToolInstall.mk "default" ["B"]]]).dockerfileLines
      = ["FROM debian", "I", "B", "P"] := by
  have h := wildcard_install_always_emitted
    (Config.mk "debian" ["I"] ["P"]
      [Tool.mk "exampletool" [ToolInstall.mk "default" ["B"]]])
    [] [] (Tool.mk "exampletool" [ToolInstall.mk "default" ["B"]])
    (ToolInstall.mk "default" ["B"]) rfl rfl rfl
  simpa using h

/-- C7: the layout-ensuring operation is idempotent: a second run leaves the
workspace state exactly as the first run left it. -/
theorem setup_idempotent (s : FsState) :
    AppManager.setup_minimum_requirements (AppManager.setup_minimum_requirements s)
      = AppManager.setup_minimum_requirements s := by
  unfold AppManager.setup_minimum_requirements
  obtain ⟨root, cfg, run, dk, cp, pg⟩ := s
  cases root <;> cases run <;> cases cfg <;> simp

/-- C8: the programs directory always sits directly under the runtime
directory, so the `strip_prefix` step of `init` always yields `programs` and
never fails, and the Dockerfile written by `init` is the compiled script
followed by exactly the `COPY` trailer line and the `WORKDIR` trailer
line. -/
theorem programs_dir_descendant (root : List String) (config : Config) :
    stripPrefix (FilesInfo.new root).runtime.programs.path
        (FilesInfo.new root).runtime.path = some ["programs"]
    ∧ initDockerfileContent root config
        = some (config.to_dockerfile
            ++ ("COPY " ++ pathDisplay ["programs"] ++ " /root/workspace\n")
            ++ "WORKDIR /root/workspace\n") :=
  ⟨stripPrefix_programs root, initDockerfileContent_eq root config⟩

/-- C9: whenever the config file exists, none of the operations changes its
contents: layout setup keeps it, `init` succeeds and keeps it, `enter` and
`kill` keep it. -/
theorem config_never_rewritten (s : FsState) (c : Config) (root : List String)
    (host : String) (h : s.configFile = some c) :
    (AppManager.setup_minimum_requirements s).configFile = some c
    ∧ (AppManager.init root host s).map FsState.configFile = Except.ok (some c)
    ∧ (AppManager.enter s).configFile = some c
    ∧ (AppManager.kill s).configFile = some c := by
  refine ⟨?_, ?_, h, h⟩
  · unfold AppManager.setup_minimum_requirements
    obtain ⟨rt, cfg, run, dk, cp, pg⟩ := s
    cases rt <;> cases run <;> simp_all
  · obtain ⟨rt, cfg, run, dk, cp, pg⟩ := s
    simp only [FsState.configFile] at h
    subst h
    simp [AppManager.init, AppManager.open_config, initDockerfileContent_eq, Except.map]

/-- C9 witness. -/
theorem config_never_rewritten_witness :
    (AppManager.setup_minimum_requirements readyFs).configFile = some Config.default
    ∧ (AppManager.init ["root"] "hostdir" readyFs).map FsState.configFile
        = Except.ok (some Config.default)
    ∧ (AppManager.enter readyFs).configFile = some Config.default
    ∧ (AppManager.kill readyFs).configFile = some Config.default :=
  config_never_rewritten readyFs Config.default ["root"] "hostdir" rfl

/-- C10: the compose file written by `init` does not depend on the config:
for a fixed dockerfile name it is a pure function of the host directory
path, namely a fixed prefix, the host path verbatim, and a fixed suffix. -/
theorem compose_independent_of_config (c₁ c₂ : Config) (host : String) :
    initComposeContent c₁ host = initComposeContent c₂ host
    ∧ (initComposeContent c₁ host).data
        = composePre.data ++ host.data ++ composeSuf.data :=
  ⟨rfl, generate_decomp host⟩

end Pwnenv
